import Mathlib

/-!
Verification of the AgCenter Zero2W SmartNode acquisition engine
(`src/utility/utils.py`, `src/utility/config.py`).

The Python code is shallowly embedded: pure helper functions become Lean
functions, the mutable per-sensor data dictionaries become explicit state
records that are threaded through the loops, and a Python exception that
the code does not catch is modelled by an `Option`/`Except` failure value.
Numeric sensor readings are modelled as `Int` (the claims under study only
involve integer-valued scenarios; `find_median_data` itself is kept
polymorphic over a linear order, as the Python function only requires its
inputs to be sortable).
-/

set_option maxRecDepth 8000

namespace SmartNode

/-- config.py: `NUM_READINGS = 10` (samples per attribute per cycle). -/
def NUM_READINGS : Nat := 10

/-- config.py: `CO2_ATTEMPTS = 5` (retry budget for zero CO2 readings). -/
def CO2_ATTEMPTS : Nat := 5

/-- config.py: `NODE = 0x45` (node identifier stamped into readings). -/
def NODE : Int := 0x45

/-- utils.py line 34: `Controller.STAGGER_INTERVAL = 20` (minutes). -/
def STAGGER_INTERVAL : Nat := 20

/-- utils.py lines 22-27, `find_median_data`: if the list is non-empty
and its length equals `NUM_READINGS`, sort it in place and return the
element at index `int(len/2)`; otherwise return `None`.  Python's
`list.sort()` produces the unique `≤`-sorted permutation of the list,
embedded here with `List.insertionSort`. -/
def find_median_data {α : Type} [LinearOrder α] (data_list : List α) : Option α :=
  if data_list ≠ [] then
    if data_list.length = NUM_READINGS then
      (List.insertionSort (· ≤ ·) data_list)[data_list.length / 2]?
    else none
  else none

/-- utils.py lines 201-211, `Controller._calc_next_reading`: with the
completion wall-clock time at `minute` and `second`, the sleep is
`(STAGGER_INTERVAL - minute % STAGGER_INTERVAL) * 60 + second`. -/
def calc_next_reading (minute second : Nat) : Nat :=
  let minutes_next := STAGGER_INTERVAL - minute % STAGGER_INTERVAL
  minutes_next * 60 + second

/-- One attribute slot of a sensor's data dictionary.  Before reduction it
holds the raw accumulator list (`raw`); `_read` overwrites it in place with
the result of `find_median_data` (`red`), which is a number or `None`. -/
inductive Store
  | raw (l : List Int)
  | red (v : Option Int)
deriving DecidableEq

/-- Python `list.append` on a stored value: succeeds on a list; calling
`.append` on an already-reduced value (an int or `None`) raises
`AttributeError`, modelled as `none`. -/
def Store.append (s : Store) (x : Int) : Option Store :=
  match s with
  | .raw l => some (.raw (l ++ [x]))
  | .red _ => none

/-- The in-place update `data[key] = find_median_data(data[key])` performed
by the sensors' `_read` methods.  On a list it stores the median (or
`None`); on an already-reduced falsy value (`None` or `0`) Python's
`if data_list:` test fails and `None` is stored; on a non-zero int
`len(data_list)` raises `TypeError`, modelled as `none`. -/
def Store.reduce (s : Store) : Option Store :=
  match s with
  | .raw l => some (.red (find_median_data l))
  | .red none => some (.red none)
  | .red (some v) => if v = 0 then some (.red none) else none

/-- Python truthiness of a stored value, as used by
`all(self.__CO2_data[key] for key in ...)`: a reduced `None` or `0` is
falsy, a non-zero int is truthy, a raw list is truthy iff non-empty. -/
def Store.truthy (s : Store) : Bool :=
  match s with
  | .raw l => decide (l ≠ [])
  | .red none => false
  | .red (some v) => decide (v ≠ 0)

/-- utils.py lines 437-446: the per-attribute retry loop of
`CO2_ENS160.collect_data_for_median`.  `readings i` is the value the
hardware returns on attempt `i` (`getattr(self, key)`); a zero reading
sleeps and retries, the first non-zero reading is appended and the loop
breaks (`flag`).  The first argument is the remaining attempt count,
the second the current attempt index. -/
def co2_try_read (readings : Nat → Int) : Nat → Nat → Store → Option Store
  | 0, _, s => some s
  | n + 1, i, s =>
    let reading := readings i
    if reading = 0 then co2_try_read readings n (i + 1) s
    else s.append reading

/-- utils.py lines 386-390: the data dictionary of `TEMP_AHT21`
(attribute accumulators for `temperature` and `relative_humidity`). -/
structure AHTData where
  temperature : Store
  relative_humidity : Store
deriving DecidableEq

/-- utils.py lines 428-433: the data dictionary of `CO2_ENS160`. -/
structure CO2Data where
  AQI : Store
  TVOC : Store
  eCO2 : Store
deriving DecidableEq

/-- utils.py lines 473-479: the data dictionary of `RGB_TCS34725`.
The `color_rgb_bytes` tuple attribute is modelled as an `Int` like the
others; no claim depends on its composite structure. -/
structure RGBData where
  color : Store
  color_temperature : Store
  lux : Store
  color_rgb_bytes : Store
deriving DecidableEq

/-- utils.py lines 507-511: the data dictionary of `IR_MLX90614`. -/
structure IRData where
  ambient_temperature : Store
  object_temperature : Store
deriving DecidableEq

/-- utils.py lines 539-545: the data dictionary of `UV_LTR390`. -/
structure UVData where
  uvi : Store
  lux : Store
  light : Store
  uvs : Store
deriving DecidableEq

/-- A reading as packaged by a sensor's `package` method: the (reduced)
data dictionary entries in insertion order, plus the `"Node"` entry. -/
structure Reading where
  attrs : List (String × Store)
  node : Int
deriving DecidableEq

/-- The sensor objects managed by `Controller.__current_objects`
(utils.py classes `Camera`, `TEMP_AHT21`, `CO2_ENS160`, `RGB_TCS34725`,
`IR_MLX90614`, `UV_LTR390`).  The CO2 variant carries its
`temperature_compensation` and `humidity_compensation` fields
(utils.py lines 425-426). -/
inductive Sensor
  | camera
  | temp (d : AHTData)
  | co2 (d : CO2Data) (temperature_compensation humidity_compensation : Int)
  | rgb (d : RGBData)
  | ir (d : IRData)
  | uv (d : UVData)
deriving DecidableEq

/-- `isinstance(sensor, TEMP_AHT21)`. -/
def isTemp : Sensor → Bool
  | .temp _ => true
  | _ => false

/-- `isinstance(sensor, CO2_ENS160)`. -/
def isCO2 : Sensor → Bool
  | .co2 _ _ _ => true
  | _ => false

/-- `isinstance(sensor, Camera)`. -/
def isCamera : Sensor → Bool
  | .camera => true
  | _ => false

/-- Scripted hardware: the value `getattr(self, key)` returns for each
attribute.  Per-round readings are indexed by the round number; the CO2
attributes are additionally indexed by the attempt number within the
round's retry loop.  A total function models executions in which no
hardware read raises (the raising case is modelled separately below). -/
structure HW where
  aht_temperature : Nat → Int
  aht_relative_humidity : Nat → Int
  AQI : Nat → Nat → Int
  TVOC : Nat → Nat → Int
  eCO2 : Nat → Nat → Int
  color : Nat → Int
  color_temperature : Nat → Int
  rgb_lux : Nat → Int
  color_rgb_bytes : Nat → Int
  ambient_temperature : Nat → Int
  object_temperature : Nat → Int
  uvi : Nat → Int
  uv_lux : Nat → Int
  light : Nat → Int
  uvs : Nat → Int

/-- utils.py lines 386-390, `TEMP_AHT21.reset_sensor_data`. -/
def TEMP_AHT21_reset : AHTData := ⟨.raw [], .raw []⟩

/-- utils.py lines 428-433, `CO2_ENS160.reset_sensor_data`. -/
def CO2_ENS160_reset : CO2Data := ⟨.raw [], .raw [], .raw []⟩

/-- utils.py lines 473-479, `RGB_TCS34725.reset_sensor_data`. -/
def RGB_TCS34725_reset : RGBData := ⟨.raw [], .raw [], .raw [], .raw []⟩

/-- utils.py lines 507-511, `IR_MLX90614.reset_sensor_data`. -/
def IR_MLX90614_reset : IRData := ⟨.raw [], .raw []⟩

/-- utils.py lines 539-545, `UV_LTR390.reset_sensor_data`. -/
def UV_LTR390_reset : UVData := ⟨.raw [], .raw [], .raw [], .raw []⟩

/-- utils.py lines 392-394, `TEMP_AHT21.collect_data_for_median`:
append the current hardware value of each attribute to its accumulator. -/
def TEMP_AHT21_collect (t h : Int) (d : AHTData) : Option AHTData := do
  let st ← d.temperature.append t
  let sh ← d.relative_humidity.append h
  pure ⟨st, sh⟩

/-- utils.py lines 435-446, `CO2_ENS160.collect_data_for_median`: run the
zero-retry attempt loop for each of the three attributes in dictionary
order.  `r` is the current round (selecting the hardware values). -/
def CO2_ENS160_collect (hw : HW) (r : Nat) (d : CO2Data) : Option CO2Data := do
  let sa ← co2_try_read (hw.AQI r) CO2_ATTEMPTS 0 d.AQI
  let st ← co2_try_read (hw.TVOC r) CO2_ATTEMPTS 0 d.TVOC
  let se ← co2_try_read (hw.eCO2 r) CO2_ATTEMPTS 0 d.eCO2
  pure ⟨sa, st, se⟩

/-- utils.py lines 481-483, `RGB_TCS34725.collect_data_for_median`. -/
def RGB_TCS34725_collect (hw : HW) (r : Nat) (d : RGBData) : Option RGBData := do
  let s1 ← d.color.append (hw.color r)
  let s2 ← d.color_temperature.append (hw.color_temperature r)
  let s3 ← d.lux.append (hw.rgb_lux r)
  let s4 ← d.color_rgb_bytes.append (hw.color_rgb_bytes r)
  pure ⟨s1, s2, s3, s4⟩

/-- utils.py lines 513-515, `IR_MLX90614.collect_data_for_median`. -/
def IR_MLX90614_collect (hw : HW) (r : Nat) (d : IRData) : Option IRData := do
  let s1 ← d.ambient_temperature.append (hw.ambient_temperature r)
  let s2 ← d.object_temperature.append (hw.object_temperature r)
  pure ⟨s1, s2⟩

/-- utils.py lines 547-549, `UV_LTR390.collect_data_for_median`. -/
def UV_LTR390_collect (hw : HW) (r : Nat) (d : UVData) : Option UVData := do
  let s1 ← d.uvi.append (hw.uvi r)
  let s2 ← d.lux.append (hw.uv_lux r)
  let s3 ← d.light.append (hw.light r)
  let s4 ← d.uvs.append (hw.uvs r)
  pure ⟨s1, s2, s3, s4⟩

/-- utils.py lines 413-415, `TEMP_AHT21.get_temperature`: read
`self.__AHT_data["temperature"][0]` and return it, or the default `25`
when it is falsy (zero).  Subscripting an empty list (`IndexError`) or a
reduced non-list value (`TypeError`) is the `none` case. -/
def get_temperature (d : AHTData) : Option Int :=
  match d.temperature with
  | .raw data => (data[0]?).map (fun temp => if temp ≠ 0 then temp else 25)
  | .red _ => none

/-- utils.py lines 417-419, `TEMP_AHT21.get_humidity`: same shape with
default `50`. -/
def get_humidity (d : AHTData) : Option Int :=
  match d.relative_humidity with
  | .raw data => (data[0]?).map (fun humidity => if humidity ≠ 0 then humidity else 50)
  | .red _ => none

/-- utils.py lines 396-404, `TEMP_AHT21._read`: overwrite every attribute
slot with `find_median_data` of its current content and report success.
In executions without a hardware `RuntimeError` the method returns `True`
whenever no other exception occurs, even when the medians are `None`;
an uncaught `TypeError` from `Store.reduce` is the `none` case. -/
def TEMP_AHT21_read (d : AHTData) : Option AHTData := do
  let st ← d.temperature.reduce
  let sh ← d.relative_humidity.reduce
  pure ⟨st, sh⟩

/-- utils.py lines 448-456, `CO2_ENS160._read`: same shape. -/
def CO2_ENS160_read (d : CO2Data) : Option CO2Data := do
  let sa ← d.AQI.reduce
  let st ← d.TVOC.reduce
  let se ← d.eCO2.reduce
  pure ⟨sa, st, se⟩

/-- utils.py lines 485-493, `RGB_TCS34725._read`. -/
def RGB_TCS34725_read (d : RGBData) : Option RGBData := do
  let s1 ← d.color.reduce
  let s2 ← d.color_temperature.reduce
  let s3 ← d.lux.reduce
  let s4 ← d.color_rgb_bytes.reduce
  pure ⟨s1, s2, s3, s4⟩

/-- utils.py lines 517-525, `IR_MLX90614._read`. -/
def IR_MLX90614_read (d : IRData) : Option IRData := do
  let s1 ← d.ambient_temperature.reduce
  let s2 ← d.object_temperature.reduce
  pure ⟨s1, s2⟩

/-- utils.py lines 551-558, `UV_LTR390._read`. -/
def UV_LTR390_read (d : UVData) : Option UVData := do
  let s1 ← d.uvi.reduce
  let s2 ← d.lux.reduce
  let s3 ← d.light.reduce
  let s4 ← d.uvs.reduce
  pure ⟨s1, s2, s3, s4⟩

/-- utils.py lines 406-411, `TEMP_AHT21.package`: `_read` mutates the
data dictionary and returns `True` (absent a driver `RuntimeError`), so a
reading is always produced; the result pairs the optional packaged
reading with the sensor's post-`_read` data dictionary. -/
def TEMP_AHT21_package (d : AHTData) : Option (Option (String × Reading) × AHTData) := do
  let dr ← TEMP_AHT21_read d
  pure (some ("TEMP_AHT21",
    ⟨[("temperature", dr.temperature), ("relative_humidity", dr.relative_humidity)], NODE⟩), dr)

/-- utils.py lines 458-463, `CO2_ENS160.package`: after `_read`, the
reading is produced only when every reduced attribute value is truthy
(`all(self.__CO2_data[key] for key in ...)`); otherwise `data` stays
`None` while the data dictionary keeps its reduced values. -/
def CO2_ENS160_package (d : CO2Data) : Option (Option (String × Reading) × CO2Data) := do
  let dr ← CO2_ENS160_read d
  if dr.AQI.truthy && dr.TVOC.truthy && dr.eCO2.truthy then
    pure (some ("CO2_ENS160", ⟨[("AQI", dr.AQI), ("TVOC", dr.TVOC), ("eCO2", dr.eCO2)], NODE⟩), dr)
  else
    pure (none, dr)

/-- utils.py lines 495-500, `RGB_TCS34725.package`. -/
def RGB_TCS34725_package (d : RGBData) : Option (Option (String × Reading) × RGBData) := do
  let dr ← RGB_TCS34725_read d
  pure (some ("RGB_TCS34725",
    ⟨[("color", dr.color), ("color_temperature", dr.color_temperature),
      ("lux", dr.lux), ("color_rgb_bytes", dr.color_rgb_bytes)], NODE⟩), dr)

/-- utils.py lines 527-532, `IR_MLX90614.package`. -/
def IR_MLX90614_package (d : IRData) : Option (Option (String × Reading) × IRData) := do
  let dr ← IR_MLX90614_read d
  pure (some ("IR_MLX90614",
    ⟨[("ambient_temperature", dr.ambient_temperature),
      ("object_temperature", dr.object_temperature)], NODE⟩), dr)

/-- utils.py lines 560-565, `UV_LTR390.package`. -/
def UV_LTR390_package (d : UVData) : Option (Option (String × Reading) × UVData) := do
  let dr ← UV_LTR390_read d
  pure (some ("UV_LTR390",
    ⟨[("uvi", dr.uvi), ("lux", dr.lux), ("light", dr.light), ("uvs", dr.uvs)], NODE⟩), dr)

/-- Dispatch of `sensor.package()` over the sensor variants, pairing the
optional reading with the sensor in its post-`_read` state.  `get_data`
never calls `package` on the camera (it `continue`s first); the camera
case is present only for totality. -/
def Sensor.package : Sensor → Option (Option (String × Reading) × Sensor)
  | .camera => some (none, .camera)
  | .temp d => (TEMP_AHT21_package d).map (fun x => (x.1, .temp x.2))
  | .co2 d tc hc => (CO2_ENS160_package d).map (fun x => (x.1, .co2 x.2 tc hc))
  | .rgb d => (RGB_TCS34725_package d).map (fun x => (x.1, .rgb x.2))
  | .ir d => (IR_MLX90614_package d).map (fun x => (x.1, .ir x.2))
  | .uv d => (UV_LTR390_package d).map (fun x => (x.1, .uv x.2))

/-- Dispatch of `sensor.reset_sensor_data()`: fresh empty accumulators;
the CO2 compensation fields are not touched by reset. -/
def Sensor.reset_sensor_data : Sensor → Sensor
  | .camera => .camera
  | .temp _ => .temp TEMP_AHT21_reset
  | .co2 _ tc hc => .co2 CO2_ENS160_reset tc hc
  | .rgb _ => .rgb RGB_TCS34725_reset
  | .ir _ => .ir IR_MLX90614_reset
  | .uv _ => .uv UV_LTR390_reset

/-- utils.py lines 158-168, the packaging loop of `Controller.get_data`:
skip the camera; for every other sensor call `package()`; when it returns
data, add it to `sensor_data` and call `reset_sensor_data()`, otherwise
leave the sensor as `package` left it (no reset).  Returns the assembled
snapshot together with the post-cycle sensor states; `none` models an
uncaught exception inside the loop. -/
def get_data_package_loop : List Sensor → Option (List (String × Reading) × List Sensor)
  | [] => some ([], [])
  | .camera :: rest =>
      (get_data_package_loop rest).map (fun x => (x.1, Sensor.camera :: x.2))
  | s :: rest => do
      let pr ← s.package
      let xs ← get_data_package_loop rest
      match pr.1 with
      | some kv => pure (kv :: xs.1, pr.2.reset_sensor_data :: xs.2)
      | none => pure (xs.1, pr.2 :: xs.2)

/-- utils.py lines 111-127, the scan-and-reorder prefix of
`Controller._gather_sensor_data`: if both a `TEMP_AHT21` and a
`CO2_ENS160` are present and the CO2 sensor's index precedes the
temperature sensor's, pop the CO2 sensor and append it at the end.
`Controller._create_objects` instantiates at most one object per sensor
class (it iterates the distinct keys of the sensor/pin map), so the
index each `objects.index(sensor)` call produces is the unique index of
the sensor of that class, here `List.findIdx`. -/
def compensation_reorder (objects : List Sensor) : List Sensor :=
  if objects.any isTemp && objects.any isCO2 then
    let aht21_index := objects.findIdx isTemp
    let co2_index := objects.findIdx isCO2
    if co2_index < aht21_index then
      match objects[co2_index]? with
      | some s => objects.eraseIdx co2_index ++ [s]
      | none => objects
    else objects
  else objects

/-- utils.py lines 129-150, one round of the sampling loop of
`Controller._gather_sensor_data`, threading the function-scope locals
`aht21_temperature` / `aht21_humidity` (`none` while still unassigned;
referencing them unassigned is a `NameError`, the failure case).  The
camera is skipped; the temperature sensor collects and, when a CO2
sensor exists, refreshes the locals from `get_temperature` /
`get_humidity`; the CO2 sensor, when a temperature sensor exists, has
its compensation fields assigned from the locals before collecting. -/
def gather_pass (hw : HW) (aht21_exists co2_exists : Bool) (r : Nat) :
    List Sensor → Option (Int × Int) → Option (List Sensor × Option (Int × Int))
  | [], lo => some ([], lo)
  | .camera :: rest, lo =>
      (gather_pass hw aht21_exists co2_exists r rest lo).map
        (fun x => (Sensor.camera :: x.1, x.2))
  | .temp d :: rest, lo =>
      if co2_exists then
        match TEMP_AHT21_collect (hw.aht_temperature r) (hw.aht_relative_humidity r) d with
        | none => none
        | some dc =>
          match get_temperature dc, get_humidity dc with
          | some t, some h =>
              (gather_pass hw aht21_exists co2_exists r rest (some (t, h))).map
                (fun x => (Sensor.temp dc :: x.1, x.2))
          | _, _ => none
      else
        match TEMP_AHT21_collect (hw.aht_temperature r) (hw.aht_relative_humidity r) d with
        | none => none
        | some dc =>
            (gather_pass hw aht21_exists co2_exists r rest lo).map
              (fun x => (Sensor.temp dc :: x.1, x.2))
  | .co2 d tc hc :: rest, lo =>
      if aht21_exists then
        match lo with
        | none => none
        | some th =>
          match CO2_ENS160_collect hw r d with
          | none => none
          | some dc =>
              (gather_pass hw aht21_exists co2_exists r rest lo).map
                (fun x => (Sensor.co2 dc th.1 th.2 :: x.1, x.2))
      else
        match CO2_ENS160_collect hw r d with
        | none => none
        | some dc =>
            (gather_pass hw aht21_exists co2_exists r rest lo).map
              (fun x => (Sensor.co2 dc tc hc :: x.1, x.2))
  | .rgb d :: rest, lo =>
      match RGB_TCS34725_collect hw r d with
      | none => none
      | some dc =>
          (gather_pass hw aht21_exists co2_exists r rest lo).map
            (fun x => (Sensor.rgb dc :: x.1, x.2))
  | .ir d :: rest, lo =>
      match IR_MLX90614_collect hw r d with
      | none => none
      | some dc =>
          (gather_pass hw aht21_exists co2_exists r rest lo).map
            (fun x => (Sensor.ir dc :: x.1, x.2))
  | .uv d :: rest, lo =>
      match UV_LTR390_collect hw r d with
      | none => none
      | some dc =>
          (gather_pass hw aht21_exists co2_exists r rest lo).map
            (fun x => (Sensor.uv dc :: x.1, x.2))

/-- The `for _ in range(config.NUM_READINGS)` loop of
`Controller._gather_sensor_data` (utils.py line 129): run `n` more
rounds starting at round index `r`, threading sensors and locals. -/
def gather_rounds (hw : HW) (aht21_exists co2_exists : Bool) :
    Nat → Nat → List Sensor → Option (Int × Int) →
      Option (List Sensor × Option (Int × Int))
  | 0, _, sensors, lo => some (sensors, lo)
  | n + 1, r, sensors, lo =>
      match gather_pass hw aht21_exists co2_exists r sensors lo with
      | none => none
      | some x => gather_rounds hw aht21_exists co2_exists n (r + 1) x.1 x.2

/-- utils.py lines 107-150, `Controller._gather_sensor_data`: compute the
existence flags over the original object list (the camera capture in the
same scan loop produces no sensor data and is modelled separately),
reorder for compensation, then run `NUM_READINGS` rounds. -/
def gather_sensor_data (hw : HW) (objects : List Sensor) : Option (List Sensor) :=
  let aht21_exists := objects.any isTemp
  let co2_exists := objects.any isCO2
  let reordered := compensation_reorder objects
  (gather_rounds hw aht21_exists co2_exists NUM_READINGS 0 reordered none).map Prod.fst

/-- One full body of the `while True:` acquisition loop of
`Controller.get_data` (utils.py lines 152-173), restricted to its
data-producing part: gather, then package into the cycle's snapshot.
The result pairs the published snapshot (`self.__last_data`) with the
post-cycle sensor states; `none` is an exception escaping the loop. -/
def get_data_cycle (hw : HW) (objects : List Sensor) :
    Option (List (String × Reading) × List Sensor) := do
  let gathered ← gather_sensor_data hw objects
  get_data_package_loop gathered

/-- Python exception classes relevant to the fault-handling analysis. -/
inductive PyErr
  | runtimeError
  | attributeError
deriving DecidableEq

/-- utils.py lines 263-293, `Camera.capture_image`: the body is wrapped
in `try: ... except RuntimeError: ... return None`.  `hwCapture` is the
outcome of the underlying capture pipeline; a `RuntimeError` is caught
and turned into `None`, any other exception propagates. -/
def capture_image (hwCapture : Except PyErr String) : Except PyErr (Option String) :=
  match hwCapture with
  | .ok path => .ok (some path)
  | .error .runtimeError => .ok none
  | .error e => .error e

/-- utils.py lines 437-446 with faulting hardware: the same per-attribute
retry loop as `co2_try_read`, but each `getattr(self, key)` may raise.
`collect_data_for_median` contains no `try`/`except`, so a raised
exception propagates out of the loop immediately. -/
def co2_try_read_exc (readings : Nat → Except PyErr Int) :
    Nat → Nat → Store → Except PyErr Store
  | 0, _, s => .ok s
  | n + 1, i, s =>
    match readings i with
    | .error e => .error e
    | .ok reading =>
      if reading = 0 then co2_try_read_exc readings n (i + 1) s
      else
        match s.append reading with
        | some sa => .ok sa
        | none => .error .attributeError

/-- `CO2_ENS160.collect_data_for_median` over faulting hardware
(per-round, per-attempt read outcomes for the three attributes). -/
def CO2_ENS160_collect_exc (hwA hwT hwE : Nat → Nat → Except PyErr Int) (r : Nat)
    (d : CO2Data) : Except PyErr CO2Data := do
  let sa ← co2_try_read_exc (hwA r) CO2_ATTEMPTS 0 d.AQI
  let st ← co2_try_read_exc (hwT r) CO2_ATTEMPTS 0 d.TVOC
  let se ← co2_try_read_exc (hwE r) CO2_ATTEMPTS 0 d.eCO2
  pure ⟨sa, st, se⟩

/-- The `NUM_READINGS`-round sampling loop of
`Controller._gather_sensor_data` for an object list holding only the
CO2 sensor, over faulting hardware.  Neither the round loop nor
`get_data` wraps the collection calls in `try`/`except`, so an
exception raised by a read propagates unchanged. -/
def gather_rounds_co2_exc (hwA hwT hwE : Nat → Nat → Except PyErr Int) :
    Nat → Nat → CO2Data → Except PyErr CO2Data
  | 0, _, d => .ok d
  | n + 1, r, d => do
      let dc ← CO2_ENS160_collect_exc hwA hwT hwE r d
      gather_rounds_co2_exc hwA hwT hwE n (r + 1) dc

/-- One body of the `while True:` loop of `Controller.get_data` for an
object list holding only the CO2 sensor, over faulting hardware: gather
(any exception propagates out of `get_data`, terminating the task),
then package.  Exceptions raised inside packaging are likewise
unhandled (`.attributeError` stands for any of them here). -/
def get_data_cycle_co2_exc (hwA hwT hwE : Nat → Nat → Except PyErr Int)
    (d : CO2Data) (tc hc : Int) :
    Except PyErr (List (String × Reading) × List Sensor) := do
  let dc ← gather_rounds_co2_exc hwA hwT hwE NUM_READINGS 0 d
  match get_data_package_loop [.co2 dc tc hc] with
  | some res => .ok res
  | none => .error .attributeError

/-- State of a fresh `TEMP_AHT21` (its `__init__` calls
`reset_sensor_data`, utils.py lines 382-384). -/
def tempInit : Sensor := .temp TEMP_AHT21_reset

/-- State of a fresh `CO2_ENS160`: reset accumulators and the default
compensation fields `25` and `50` (utils.py lines 422-426). -/
def co2Init : Sensor := .co2 CO2_ENS160_reset 25 50

/-- Abbreviation: the temperature-sensor accumulators after `r` rounds of
collection under hardware `hw` (round `k` appends reading `k`). -/
def ahtAcc (hw : HW) (r : Nat) : AHTData :=
  ⟨.raw ((List.range r).map hw.aht_temperature),
   .raw ((List.range r).map hw.aht_relative_humidity)⟩

/-- Abbreviation: the value `get_temperature` yields once the first
sample is in — the first-round raw sample, with `25` substituted when
that sample is zero (falsy). -/
def compT (hw : HW) : Int :=
  if hw.aht_temperature 0 ≠ 0 then hw.aht_temperature 0 else 25

/-- Abbreviation: likewise for `get_humidity`, default `50`. -/
def compH (hw : HW) : Int :=
  if hw.aht_relative_humidity 0 ≠ 0 then hw.aht_relative_humidity 0 else 50

/-- Scripted hardware for a concrete run: the temperature attribute reads
zero in every round, relative humidity reads 40, and the CO2 attributes
read 1, 2, 3 on every attempt; all other sensors read zero. -/
def hwZeroTemp : HW :=
  ⟨fun _ => 0, fun _ => 40, fun _ _ => 1, fun _ _ => 2, fun _ _ => 3,
   fun _ => 0, fun _ => 0, fun _ => 0, fun _ => 0, fun _ => 0, fun _ => 0,
   fun _ => 0, fun _ => 0, fun _ => 0, fun _ => 0⟩

/-- Scripted hardware for a concrete run: both temperature and relative
humidity read zero every round; the CO2 attributes read 1 on every
attempt; all other sensors read zero. -/
def hwAllZero : HW :=
  ⟨fun _ => 0, fun _ => 0, fun _ _ => 1, fun _ _ => 1, fun _ _ => 1,
   fun _ => 0, fun _ => 0, fun _ => 0, fun _ => 0, fun _ => 0, fun _ => 0,
   fun _ => 0, fun _ => 0, fun _ => 0, fun _ => 0⟩

/-- Shared helper: `find_median_data` yields no value whenever the list
length differs from `NUM_READINGS`. -/
lemma find_median_data_length_ne {α : Type} [LinearOrder α] (l : List α)
    (h : l.length ≠ NUM_READINGS) : find_median_data l = none := by
  by_cases hne : l = []
  · subst hne; simp [find_median_data]
  · simp [find_median_data, hne, h]

/-- C1: for every accumulator list, `find_median_data` returns the
element at sorted index `⌊N/2⌋` when the list has exactly
`N = NUM_READINGS` values (upper median: any sorted permutation `m` of
the input has the result at index `N / 2`), and returns `none` whenever
the length differs from `N`, regardless of content. -/
theorem find_median_data_spec {α : Type} [LinearOrder α] (l m : List α) :
    (l.length = NUM_READINGS → l.Perm m → m.Sorted (· ≤ ·) →
      find_median_data l = m[NUM_READINGS / 2]?) ∧
    (l.length ≠ NUM_READINGS → find_median_data l = none) := by
  constructor
  · intro hlen hperm hsort
    have hne : l ≠ [] := by
      intro h; subst h; simp [NUM_READINGS] at hlen
    have hsorted : (List.insertionSort (· ≤ ·) l).Sorted (· ≤ ·) :=
      List.sorted_insertionSort _ l
    have hperm2 : (List.insertionSort (· ≤ ·) l).Perm m :=
      (List.perm_insertionSort _ l).trans hperm
    have heq : List.insertionSort (· ≤ ·) l = m :=
      List.eq_of_perm_of_sorted hperm2 hsorted hsort
    simp [find_median_data, hne, hlen, heq]
  · exact find_median_data_length_ne l

/-- Witness for C1: the spec's own example (ten values, upper median 6;
a three-element list reduces to no value). -/
theorem find_median_data_spec_witness :
    find_median_data ([10, 1, 9, 2, 8, 3, 7, 4, 6, 5] : List Int) = some 6 ∧
    find_median_data ([1, 2, 3] : List Int) = none := by
  constructor
  · have h := (find_median_data_spec ([10, 1, 9, 2, 8, 3, 7, 4, 6, 5] : List Int)
      [1, 2, 3, 4, 5, 6, 7, 8, 9, 10]).1 (by decide) (by decide) (by decide)
    exact h.trans (by decide)
  · exact (find_median_data_spec ([1, 2, 3] : List Int) []).2 (by decide)

/-- C2 (code bug evidence): completing at wall-clock 47:30, the computed
sleep is 810 s, which lands the next cycle 60 s past the 20-minute
stagger boundary (at minute 1 of the next hour); the number of seconds
actually remaining until the wall clock next reaches a multiple of the
stagger interval is 750.  The code adds the elapsed seconds of the
current minute instead of subtracting them. -/
theorem calc_next_reading_overshoots_boundary :
    calc_next_reading 47 30 = 810 ∧
    ((47 * 60 + 30) + calc_next_reading 47 30) % (STAGGER_INTERVAL * 60) = 60 ∧
    STAGGER_INTERVAL * 60 - ((47 * 60 + 30) % (STAGGER_INTERVAL * 60)) = 750 := by
  decide

/-- Shared helper: the CO2 retry loop leaves the store untouched when
every remaining attempt reads zero. -/
lemma co2_try_read_all_zero (readings : Nat → Int) :
    ∀ n i s, (∀ k, k < n → readings (i + k) = 0) →
      co2_try_read readings n i s = some s := by
  intro n
  induction n with
  | zero => intro i s _; rfl
  | succ n ih =>
    intro i s h
    have h0 : readings i = 0 := by simpa using h 0 (Nat.succ_pos n)
    have hrec := ih (i + 1) s (fun k hk => by
      have hx := h (k + 1) (Nat.succ_lt_succ hk)
      have he : i + (k + 1) = i + 1 + k := by omega
      rwa [he] at hx)
    simpa [co2_try_read, h0] using hrec

/-- Shared helper: the CO2 retry loop appends the first non-zero reading
and stops. -/
lemma co2_try_read_first_nonzero (readings : Nat → Int) :
    ∀ n i j s, j < n → readings (i + j) ≠ 0 → (∀ k, k < j → readings (i + k) = 0) →
      co2_try_read readings n i s = s.append (readings (i + j)) := by
  intro n
  induction n with
  | zero => intro i j s hj; exact absurd hj (Nat.not_lt_zero j)
  | succ n ih =>
    intro i j s hj hnz hz
    cases j with
    | zero =>
      have h0 : readings i ≠ 0 := by simpa using hnz
      simp [co2_try_read, h0]
    | succ k =>
      have h0 : readings i = 0 := by simpa using hz 0 (Nat.succ_pos k)
      have he : i + (k + 1) = i + 1 + k := by omega
      have hrec := ih (i + 1) k s (by omega)
        (by rwa [he] at hnz)
        (fun k2 hk2 => by
          have hx := hz (k2 + 1) (by omega)
          have he2 : i + (k2 + 1) = i + 1 + k2 := by omega
          rwa [he2] at hx)
      rw [he]
      simpa [co2_try_read, h0] using hrec

/-- Counterexample for C3: with every attempt reading zero, the retry
loop appends nothing at all — the accumulator stays empty rather than
accepting a zero reading after the budget is exhausted. -/
theorem co2_all_zero_appends_nothing :
    co2_try_read (fun _ => 0) CO2_ATTEMPTS 0 (.raw []) = some (.raw []) ∧
    Store.raw [] ≠ Store.raw [0] := by
  decide

/-- C3 (amended): for every CO2 attribute in one sampling round, the
retry loop reads up to `CO2_ATTEMPTS = 5` times and appends the first
non-zero reading to the accumulator; if all attempts read zero, nothing
is appended and the accumulator is left unchanged (there is no zero
fallback). -/
theorem co2_retry_first_nonzero_spec (readings : Nat → Int) (l : List Int) :
    ((∀ k, k < CO2_ATTEMPTS → readings k = 0) →
      co2_try_read readings CO2_ATTEMPTS 0 (.raw l) = some (.raw l)) ∧
    (∀ j, j < CO2_ATTEMPTS → readings j ≠ 0 → (∀ k, k < j → readings k = 0) →
      co2_try_read readings CO2_ATTEMPTS 0 (.raw l) = some (.raw (l ++ [readings j]))) := by
  constructor
  · intro h
    exact co2_try_read_all_zero readings CO2_ATTEMPTS 0 (.raw l)
      (fun k hk => by simpa using h k hk)
  · intro j hj hnz hz
    have h := co2_try_read_first_nonzero readings CO2_ATTEMPTS 0 j (.raw l) hj
      (by simpa using hnz) (fun k hk => by simpa using hz k hk)
    simpa [Store.append] using h

/-- Witness for C3 (amended): the spec's example sequence `[0,0,0,7,0]`
yields the first non-zero reading 7. -/
theorem co2_retry_first_nonzero_spec_witness :
    co2_try_read (fun i => if i = 3 then 7 else 0) CO2_ATTEMPTS 0 (.raw []) =
      some (.raw [7]) := by
  have h := (co2_retry_first_nonzero_spec (fun i => if i = 3 then 7 else 0) []).2
    3 (by decide) (by decide) (by decide)
  exact h.trans (by decide)

/-- Shared helper: `findIdx` over a list split around the first element
satisfying the predicate. -/
lemma findIdx_append_cons {α : Type} (p : α → Bool) :
    ∀ (pre : List α) (a : α) (post : List α),
      (∀ s ∈ pre, p s = false) → p a = true →
      List.findIdx p (pre ++ a :: post) = pre.length := by
  intro pre
  induction pre with
  | nil => intro a post _ ha; simp [List.findIdx_cons, ha]
  | cons x xs ih =>
    intro a post hpre ha
    have hx : p x = false := hpre x (List.mem_cons_self x xs)
    have htail := ih a post (fun s hs => hpre s (List.mem_cons_of_mem x hs)) ha
    simp [List.findIdx_cons, hx, htail]

/-- Shared helper: indexing a list split at the index of the middle
element. -/
lemma getElem?_append_cons {α : Type} :
    ∀ (pre : List α) (a : α) (post : List α),
      (pre ++ a :: post)[pre.length]? = some a := by
  intro pre
  induction pre with
  | nil => intro a post; simp
  | cons x xs ih => intro a post; simpa using ih a post

/-- Shared helper: `eraseIdx` at the index of the middle element removes
exactly that element. -/
lemma eraseIdx_append_cons {α : Type} :
    ∀ (pre : List α) (a : α) (post : List α),
      (pre ++ a :: post).eraseIdx pre.length = pre ++ post := by
  intro pre
  induction pre with
  | nil => intro a post; simp [List.eraseIdx]
  | cons x xs ih => intro a post; simpa [List.eraseIdx] using ih a post

/-- C5: for every object list containing (uniquely, as constructed by
`Controller._create_objects`) both the temperature sensor and the CO2
sensor, with the CO2 sensor preceding the temperature sensor, the
pre-sampling reordering pops the CO2 sensor and appends it at the end,
so in the resulting iteration order the temperature sensor comes
strictly before the CO2 sensor (hence is sampled before it in every
round of the per-round sweep). -/
theorem compensation_reorder_spec
    (dT : AHTData) (dC : CO2Data) (tc hc : Int)
    (xs ys zs : List Sensor)
    (hxs : ∀ s ∈ xs, isTemp s = false ∧ isCO2 s = false)
    (hys : ∀ s ∈ ys, isTemp s = false ∧ isCO2 s = false)
    (hzs : ∀ s ∈ zs, isTemp s = false ∧ isCO2 s = false) :
    compensation_reorder (xs ++ Sensor.co2 dC tc hc :: (ys ++ Sensor.temp dT :: zs))
        = (xs ++ (ys ++ Sensor.temp dT :: zs)) ++ [Sensor.co2 dC tc hc] ∧
    ((xs ++ (ys ++ Sensor.temp dT :: zs)) ++ [Sensor.co2 dC tc hc]).findIdx isTemp <
      ((xs ++ (ys ++ Sensor.temp dT :: zs)) ++ [Sensor.co2 dC tc hc]).findIdx isCO2 := by
  have hanyT : (xs ++ Sensor.co2 dC tc hc :: (ys ++ Sensor.temp dT :: zs)).any isTemp
      = true := by
    simp [isTemp]
  have hanyC : (xs ++ Sensor.co2 dC tc hc :: (ys ++ Sensor.temp dT :: zs)).any isCO2
      = true := by
    simp [isCO2]
  have hfC : (xs ++ Sensor.co2 dC tc hc :: (ys ++ Sensor.temp dT :: zs)).findIdx isCO2
      = xs.length :=
    findIdx_append_cons isCO2 xs (Sensor.co2 dC tc hc) (ys ++ Sensor.temp dT :: zs)
      (fun s hs => (hxs s hs).2) rfl
  have hshape : xs ++ Sensor.co2 dC tc hc :: (ys ++ Sensor.temp dT :: zs)
      = (xs ++ Sensor.co2 dC tc hc :: ys) ++ Sensor.temp dT :: zs := by
    simp
  have hfT : (xs ++ Sensor.co2 dC tc hc :: (ys ++ Sensor.temp dT :: zs)).findIdx isTemp
      = (xs ++ Sensor.co2 dC tc hc :: ys).length := by
    rw [hshape]
    refine findIdx_append_cons isTemp (xs ++ Sensor.co2 dC tc hc :: ys) (Sensor.temp dT) zs
      ?_ rfl
    intro s hs
    rcases List.mem_append.mp hs with h | h
    · exact (hxs s h).1
    · rcases List.mem_cons.mp h with h | h
      · subst h; rfl
      · exact (hys s h).1
  have hget : (xs ++ Sensor.co2 dC tc hc :: (ys ++ Sensor.temp dT :: zs))[xs.length]? =
      some (Sensor.co2 dC tc hc) :=
    getElem?_append_cons xs (Sensor.co2 dC tc hc) (ys ++ Sensor.temp dT :: zs)
  have herase : (xs ++ Sensor.co2 dC tc hc :: (ys ++ Sensor.temp dT :: zs)).eraseIdx
      xs.length = xs ++ (ys ++ Sensor.temp dT :: zs) :=
    eraseIdx_append_cons xs (Sensor.co2 dC tc hc) (ys ++ Sensor.temp dT :: zs)
  constructor
  · have hb : ((xs ++ Sensor.co2 dC tc hc :: (ys ++ Sensor.temp dT :: zs)).any isTemp &&
        (xs ++ Sensor.co2 dC tc hc :: (ys ++ Sensor.temp dT :: zs)).any isCO2) = true := by
      rw [hanyT, hanyC]
      rfl
    unfold compensation_reorder
    rw [if_pos hb]
    simp only [hfC, hfT]
    have hlt : xs.length < (xs ++ Sensor.co2 dC tc hc :: ys).length := by
      simp only [List.length_append, List.length_cons]
      omega
    rw [if_pos hlt]
    simp only [hget, herase]
  · have hfT2 : ((xs ++ (ys ++ Sensor.temp dT :: zs)) ++ [Sensor.co2 dC tc hc]).findIdx
        isTemp = (xs ++ ys).length := by
      have hshape2 : (xs ++ (ys ++ Sensor.temp dT :: zs)) ++ [Sensor.co2 dC tc hc]
          = (xs ++ ys) ++ Sensor.temp dT :: (zs ++ [Sensor.co2 dC tc hc]) := by
        simp
      rw [hshape2]
      refine findIdx_append_cons isTemp (xs ++ ys) (Sensor.temp dT)
        (zs ++ [Sensor.co2 dC tc hc]) ?_ rfl
      intro s hs
      rcases List.mem_append.mp hs with h | h
      · exact (hxs s h).1
      · exact (hys s h).1
    have hfC2 : ((xs ++ (ys ++ Sensor.temp dT :: zs)) ++ [Sensor.co2 dC tc hc]).findIdx
        isCO2 = (xs ++ (ys ++ Sensor.temp dT :: zs)).length := by
      refine findIdx_append_cons isCO2 (xs ++ (ys ++ Sensor.temp dT :: zs))
        (Sensor.co2 dC tc hc) [] ?_ rfl
      intro s hs
      rcases List.mem_append.mp hs with h | h
      · exact (hxs s h).2
      · rcases List.mem_append.mp h with h2 | h2
        · exact (hys s h2).2
        · rcases List.mem_cons.mp h2 with h3 | h3
          · subst h3; rfl
          · exact (hzs s h3).2
    rw [hfT2, hfC2]
    simp only [List.length_append, List.length_cons]
    omega

/-- Witness for C5: the two-element list with the CO2 sensor first is
reordered so the temperature sensor is sampled first. -/
theorem compensation_reorder_spec_witness :
    compensation_reorder [co2Init, tempInit] = [tempInit, co2Init] ∧
    [tempInit, co2Init].findIdx isTemp < [tempInit, co2Init].findIdx isCO2 := by
  have h := compensation_reorder_spec TEMP_AHT21_reset CO2_ENS160_reset 25 50
    [] [] [] (by simp) (by simp) (by simp)
  simpa [co2Init, tempInit] using h

/-- Shared helper: a successful in-place reduction always leaves a
reduced (never raw) value in the slot. -/
lemma Store.reduce_red {s t : Store} (h : s.reduce = some t) : ∃ v, t = Store.red v := by
  cases s with
  | raw l =>
    simp only [Store.reduce, Option.some_inj] at h
    exact ⟨find_median_data l, h.symm⟩
  | red v =>
    cases v with
    | none =>
      simp only [Store.reduce, Option.some_inj] at h
      exact ⟨none, h.symm⟩
    | some x =>
      by_cases hx : x = 0
      · simp only [Store.reduce, hx, if_pos, Option.some_inj] at h
        exact ⟨none, h.symm⟩
      · simp [Store.reduce, hx] at h

/-- Shared helper: after a successful `TEMP_AHT21._read`, both slots hold
reduced values. -/
lemma TEMP_AHT21_read_red {d dr : AHTData} (h : TEMP_AHT21_read d = some dr) :
    (∃ v, dr.temperature = Store.red v) ∧ (∃ v, dr.relative_humidity = Store.red v) := by
  simp only [TEMP_AHT21_read, Option.bind_eq_bind, Option.bind_eq_some, Option.pure_def,
    Option.some_inj] at h
  obtain ⟨st, h1, sh, h2, h3⟩ := h
  subst h3
  exact ⟨Store.reduce_red h1, Store.reduce_red h2⟩

/-- Shared helper: after a successful `CO2_ENS160._read`, all slots hold
reduced values. -/
lemma CO2_ENS160_read_red {d dr : CO2Data} (h : CO2_ENS160_read d = some dr) :
    (∃ v, dr.AQI = Store.red v) ∧ (∃ v, dr.TVOC = Store.red v) ∧
    (∃ v, dr.eCO2 = Store.red v) := by
  simp only [CO2_ENS160_read, Option.bind_eq_bind, Option.bind_eq_some, Option.pure_def,
    Option.some_inj] at h
  obtain ⟨sa, h1, st, h2, se, h3, h4⟩ := h
  subst h4
  exact ⟨Store.reduce_red h1, Store.reduce_red h2, Store.reduce_red h3⟩

/-- Shared helper: after a successful `RGB_TCS34725._read`, all slots
hold reduced values. -/
lemma RGB_TCS34725_read_red {d dr : RGBData} (h : RGB_TCS34725_read d = some dr) :
    (∃ v, dr.color = Store.red v) ∧ (∃ v, dr.color_temperature = Store.red v) ∧
    (∃ v, dr.lux = Store.red v) ∧ (∃ v, dr.color_rgb_bytes = Store.red v) := by
  simp only [RGB_TCS34725_read, Option.bind_eq_bind, Option.bind_eq_some, Option.pure_def,
    Option.some_inj] at h
  obtain ⟨s1, h1, s2, h2, s3, h3, s4, h4, h5⟩ := h
  subst h5
  exact ⟨Store.reduce_red h1, Store.reduce_red h2, Store.reduce_red h3, Store.reduce_red h4⟩

/-- Shared helper: after a successful `IR_MLX90614._read`, both slots
hold reduced values. -/
lemma IR_MLX90614_read_red {d dr : IRData} (h : IR_MLX90614_read d = some dr) :
    (∃ v, dr.ambient_temperature = Store.red v) ∧
    (∃ v, dr.object_temperature = Store.red v) := by
  simp only [IR_MLX90614_read, Option.bind_eq_bind, Option.bind_eq_some, Option.pure_def,
    Option.some_inj] at h
  obtain ⟨s1, h1, s2, h2, h3⟩ := h
  subst h3
  exact ⟨Store.reduce_red h1, Store.reduce_red h2⟩

/-- Shared helper: after a successful `UV_LTR390._read`, all slots hold
reduced values. -/
lemma UV_LTR390_read_red {d dr : UVData} (h : UV_LTR390_read d = some dr) :
    (∃ v, dr.uvi = Store.red v) ∧ (∃ v, dr.lux = Store.red v) ∧
    (∃ v, dr.light = Store.red v) ∧ (∃ v, dr.uvs = Store.red v) := by
  simp only [UV_LTR390_read, Option.bind_eq_bind, Option.bind_eq_some, Option.pure_def,
    Option.some_inj] at h
  obtain ⟨s1, h1, s2, h2, s3, h3, s4, h4, h5⟩ := h
  subst h5
  exact ⟨Store.reduce_red h1, Store.reduce_red h2, Store.reduce_red h3, Store.reduce_red h4⟩

/-- Shared helper: whatever a sensor's `package` publishes, every
attribute value inside the published reading is a reduced value (the raw
accumulator lists never appear in a packaged reading). -/
lemma Sensor_package_attrs_red {s : Sensor} {pr : Option (String × Reading) × Sensor}
    (h : s.package = some pr) {kv : String × Reading} (hkv : pr.1 = some kv) :
    ∀ a ∈ kv.2.attrs, ∃ v, a.2 = Store.red v := by
  cases s with
  | camera =>
    simp only [Sensor.package, Option.some_inj] at h
    rw [← h] at hkv
    simp at hkv
  | temp d =>
    simp only [Sensor.package, Option.map_eq_some'] at h
    obtain ⟨x, hx, h2⟩ := h
    simp only [TEMP_AHT21_package, Option.bind_eq_bind, Option.bind_eq_some, Option.pure_def,
      Option.some_inj] at hx
    obtain ⟨dr, hdr, h3⟩ := hx
    rw [← h2, ← h3] at hkv
    simp only [Option.some_inj] at hkv
    obtain ⟨h4, h5⟩ := TEMP_AHT21_read_red hdr
    intro a ha
    rw [← hkv] at ha
    simp only [List.mem_cons, List.mem_singleton, List.not_mem_nil] at ha
    rcases ha with ha | ha | ha
    · rw [ha]; exact h4
    · rw [ha]; exact h5
    · cases ha
  | co2 d tc hc =>
    simp only [Sensor.package, Option.map_eq_some'] at h
    obtain ⟨x, hx, h2⟩ := h
    simp only [CO2_ENS160_package, Option.bind_eq_bind, Option.bind_eq_some, Option.pure_def,
      Option.some_inj] at hx
    obtain ⟨dr, hdr, h3⟩ := hx
    obtain ⟨h4, h5, h6⟩ := CO2_ENS160_read_red hdr
    by_cases hb : (dr.AQI.truthy && dr.TVOC.truthy && dr.eCO2.truthy) = true
    · rw [if_pos hb] at h3
      simp only [Option.some_inj] at h3
      rw [← h2, ← h3] at hkv
      simp only [Option.some_inj] at hkv
      intro a ha
      rw [← hkv] at ha
      simp only [List.mem_cons, List.mem_singleton, List.not_mem_nil] at ha
      rcases ha with ha | ha | ha | ha
      · rw [ha]; exact h4
      · rw [ha]; exact h5
      · rw [ha]; exact h6
      · cases ha
    · rw [if_neg hb] at h3
      simp only [Option.some_inj] at h3
      rw [← h2, ← h3] at hkv
      simp at hkv
  | rgb d =>
    simp only [Sensor.package, Option.map_eq_some'] at h
    obtain ⟨x, hx, h2⟩ := h
    simp only [RGB_TCS34725_package, Option.bind_eq_bind, Option.bind_eq_some, Option.pure_def,
      Option.some_inj] at hx
    obtain ⟨dr, hdr, h3⟩ := hx
    rw [← h2, ← h3] at hkv
    simp only [Option.some_inj] at hkv
    obtain ⟨h4, h5, h6, h7⟩ := RGB_TCS34725_read_red hdr
    intro a ha
    rw [← hkv] at ha
    simp only [List.mem_cons, List.mem_singleton, List.not_mem_nil] at ha
    rcases ha with ha | ha | ha | ha | ha
    · rw [ha]; exact h4
    · rw [ha]; exact h5
    · rw [ha]; exact h6
    · rw [ha]; exact h7
    · cases ha
  | ir d =>
    simp only [Sensor.package, Option.map_eq_some'] at h
    obtain ⟨x, hx, h2⟩ := h
    simp only [IR_MLX90614_package, Option.bind_eq_bind, Option.bind_eq_some, Option.pure_def,
      Option.some_inj] at hx
    obtain ⟨dr, hdr, h3⟩ := hx
    rw [← h2, ← h3] at hkv
    simp only [Option.some_inj] at hkv
    obtain ⟨h4, h5⟩ := IR_MLX90614_read_red hdr
    intro a ha
    rw [← hkv] at ha
    simp only [List.mem_cons, List.mem_singleton, List.not_mem_nil] at ha
    rcases ha with ha | ha | ha
    · rw [ha]; exact h4
    · rw [ha]; exact h5
    · cases ha
  | uv d =>
    simp only [Sensor.package, Option.map_eq_some'] at h
    obtain ⟨x, hx, h2⟩ := h
    simp only [UV_LTR390_package, Option.bind_eq_bind, Option.bind_eq_some, Option.pure_def,
      Option.some_inj] at hx
    obtain ⟨dr, hdr, h3⟩ := hx
    rw [← h2, ← h3] at hkv
    simp only [Option.some_inj] at hkv
    obtain ⟨h4, h5, h6, h7⟩ := UV_LTR390_read_red hdr
    intro a ha
    rw [← hkv] at ha
    simp only [List.mem_cons, List.mem_singleton, List.not_mem_nil] at ha
    rcases ha with ha | ha | ha | ha | ha
    · rw [ha]; exact h4
    · rw [ha]; exact h5
    · rw [ha]; exact h6
    · rw [ha]; exact h7
    · cases ha

/-- Shared helper: one step of the packaging loop on a non-camera head. -/
lemma get_data_package_loop_cons (s : Sensor) (tail : List Sensor)
    (hcam : isCamera s = false) :
    get_data_package_loop (s :: tail) = (do
      let pr ← s.package
      let xs ← get_data_package_loop tail
      match pr.1 with
      | some kv => pure (kv :: xs.1, pr.2.reset_sensor_data :: xs.2)
      | none => pure (xs.1, pr.2 :: xs.2)) := by
  cases s with
  | camera => simp [isCamera] at hcam
  | temp d => rfl
  | co2 d tc hc => rfl
  | rgb d => rfl
  | ir d => rfl
  | uv d => rfl

/-- Shared helper: the inductive step of the length bound on a
non-camera head. -/
lemma get_data_package_loop_length_step {s : Sensor} {tail : List Sensor}
    {snap : List (String × Reading)} {rest : List Sensor}
    (hcam : isCamera s = false)
    (h : get_data_package_loop (s :: tail) = some (snap, rest))
    (ih : ∀ snap2 rest2, get_data_package_loop tail = some (snap2, rest2) →
      snap2.length ≤ tail.countP (fun x => !isCamera x)) :
    snap.length ≤ (s :: tail).countP (fun x => !isCamera x) := by
  rw [get_data_package_loop_cons s tail hcam] at h
  simp only [Option.bind_eq_bind, Option.bind_eq_some] at h
  obtain ⟨pr, hpr, xs, hxs, h3⟩ := h
  have htail := ih xs.1 xs.2 (by rw [hxs])
  have hcount : (s :: tail).countP (fun x => !isCamera x)
      = tail.countP (fun x => !isCamera x) + 1 := by
    simp [List.countP_cons, hcam]
  cases hp1 : pr.1 with
  | some kv =>
    rw [hp1] at h3
    simp only [Option.pure_def, Option.some_inj] at h3
    injection h3 with h4 h5
    rw [← h4, hcount]
    simpa using Nat.succ_le_succ htail
  | none =>
    rw [hp1] at h3
    simp only [Option.pure_def, Option.some_inj] at h3
    injection h3 with h4 h5
    rw [← h4, hcount]
    omega

/-- Shared helper: the packaging loop publishes at most one reading per
non-camera sensor. -/
lemma get_data_package_loop_length :
    ∀ (ss : List Sensor) (snap : List (String × Reading)) (rest : List Sensor),
      get_data_package_loop ss = some (snap, rest) →
      snap.length ≤ ss.countP (fun s => !isCamera s) := by
  intro ss
  induction ss with
  | nil =>
    intro snap rest h
    simp only [get_data_package_loop, Option.some_inj] at h
    injection h with h1 h2
    simp [← h1]
  | cons s tail ih =>
    intro snap rest h
    cases s with
    | camera =>
      simp only [get_data_package_loop, Option.map_eq_some'] at h
      obtain ⟨x, hx, heq⟩ := h
      injection heq with h1 h2
      have := ih x.1 x.2 (by rw [hx])
      rw [h1] at this
      simpa [List.countP_cons, isCamera] using this
    | temp d => exact get_data_package_loop_length_step rfl h ih
    | co2 d tc hc => exact get_data_package_loop_length_step rfl h ih
    | rgb d => exact get_data_package_loop_length_step rfl h ih
    | ir d => exact get_data_package_loop_length_step rfl h ih
    | uv d => exact get_data_package_loop_length_step rfl h ih

/-- Shared helper: the inductive step of reading provenance on a
non-camera head. -/
lemma get_data_package_loop_mem_step {s : Sensor} {tail : List Sensor}
    {snap : List (String × Reading)} {rest : List Sensor}
    (hcam : isCamera s = false)
    (h : get_data_package_loop (s :: tail) = some (snap, rest))
    (ih : ∀ snap2 rest2, get_data_package_loop tail = some (snap2, rest2) →
      ∀ kv ∈ snap2, ∃ s2 ∈ tail, ∃ pr, s2.package = some pr ∧ pr.1 = some kv) :
    ∀ kv ∈ snap, ∃ s2 ∈ s :: tail, ∃ pr, s2.package = some pr ∧ pr.1 = some kv := by
  rw [get_data_package_loop_cons s tail hcam] at h
  simp only [Option.bind_eq_bind, Option.bind_eq_some] at h
  obtain ⟨pr, hpr, xs, hxs, h3⟩ := h
  cases hp1 : pr.1 with
  | some kv0 =>
    rw [hp1] at h3
    simp only [Option.pure_def, Option.some_inj] at h3
    injection h3 with h4 h5
    intro kv hkv
    rw [← h4] at hkv
    rcases List.mem_cons.mp hkv with hkv | hkv
    · exact ⟨s, List.mem_cons_self s tail, pr, hpr, by rw [hp1, hkv]⟩
    · obtain ⟨s2, hs2, pr2, hpr2, hpr21⟩ := ih xs.1 xs.2 (by rw [hxs]) kv hkv
      exact ⟨s2, List.mem_cons_of_mem _ hs2, pr2, hpr2, hpr21⟩
  | none =>
    rw [hp1] at h3
    simp only [Option.pure_def, Option.some_inj] at h3
    injection h3 with h4 h5
    intro kv hkv
    rw [← h4] at hkv
    obtain ⟨s2, hs2, pr2, hpr2, hpr21⟩ := ih xs.1 xs.2 (by rw [hxs]) kv hkv
    exact ⟨s2, List.mem_cons_of_mem _ hs2, pr2, hpr2, hpr21⟩

/-- Shared helper: every reading the packaging loop publishes comes from
some sensor's `package` call. -/
lemma get_data_package_loop_mem :
    ∀ (ss : List Sensor) (snap : List (String × Reading)) (rest : List Sensor),
      get_data_package_loop ss = some (snap, rest) →
      ∀ kv ∈ snap, ∃ s ∈ ss, ∃ pr, s.package = some pr ∧ pr.1 = some kv := by
  intro ss
  induction ss with
  | nil =>
    intro snap rest h
    simp only [get_data_package_loop, Option.some_inj] at h
    injection h with h1 h2
    intro kv hkv
    rw [← h1] at hkv
    simp at hkv
  | cons s tail ih =>
    intro snap rest h
    cases s with
    | camera =>
      simp only [get_data_package_loop, Option.map_eq_some'] at h
      obtain ⟨x, hx, heq⟩ := h
      injection heq with h1 h2
      intro kv hkv
      rw [← h1] at hkv
      obtain ⟨s2, hs2, pr, hpr, hpr1⟩ := ih x.1 x.2 (by rw [hx]) kv hkv
      exact ⟨s2, List.mem_cons_of_mem _ hs2, pr, hpr, hpr1⟩
    | temp d => exact get_data_package_loop_mem_step rfl h ih
    | co2 d tc hc => exact get_data_package_loop_mem_step rfl h ih
    | rgb d => exact get_data_package_loop_mem_step rfl h ih
    | ir d => exact get_data_package_loop_mem_step rfl h ih
    | uv d => exact get_data_package_loop_mem_step rfl h ih

/-- Counterexample for C4: a temperature sensor whose accumulator holds
only 3 of the required `NUM_READINGS = 10` samples (reduction yields no
value) still appears in the published snapshot — `_read` returns `True`
regardless, so `package` produces a reading whose attribute values are
`None` instead of the sensor being absent. -/
theorem failed_reduction_sensor_still_in_snapshot :
    (get_data_package_loop [Sensor.temp ⟨.raw [1, 2, 3], .raw [4, 5, 6]⟩]).map
        (fun x => x.1.map Prod.fst) = some ["TEMP_AHT21"] ∧
    ([1, 2, 3] : List Int).length ≠ NUM_READINGS := by
  decide

/-- C4 (amended): the published snapshot holds at most one reading per
active (non-camera) sensor; it never contains a partially-collected
reading — every attribute value of every published reading is a reduced
value (`find_median_data` output), never a raw accumulator list; but a
non-CO2 sensor whose reduction failed is not absent: the temperature
sensor, for one, always packages a reading, carrying `None` for an
attribute whose accumulator length differed from `NUM_READINGS`. -/
theorem snapshot_reduced_and_bounded (sensors : List Sensor)
    (snap : List (String × Reading)) (rest : List Sensor)
    (h : get_data_package_loop sensors = some (snap, rest)) :
    snap.length ≤ sensors.countP (fun s => !isCamera s) ∧
    (∀ kv ∈ snap, ∀ a ∈ kv.2.attrs, ∃ v, a.2 = Store.red v) ∧
    (∀ lt lh : List Int, lt.length ≠ NUM_READINGS →
      TEMP_AHT21_package ⟨.raw lt, .raw lh⟩ =
        some (some ("TEMP_AHT21",
          ⟨[("temperature", Store.red none),
            ("relative_humidity", Store.red (find_median_data lh))], NODE⟩),
          ⟨Store.red none, Store.red (find_median_data lh)⟩)) := by
  refine ⟨get_data_package_loop_length sensors snap rest h, ?_, ?_⟩
  · intro kv hkv
    obtain ⟨s, _, pr, hpr, hpr1⟩ := get_data_package_loop_mem sensors snap rest h kv hkv
    exact Sensor_package_attrs_red hpr hpr1
  · intro lt lh hlen
    have hm : find_median_data lt = none := find_median_data_length_ne lt hlen
    have : TEMP_AHT21_package ⟨.raw lt, .raw lh⟩ =
        some (some ("TEMP_AHT21",
          ⟨[("temperature", Store.red (find_median_data lt)),
            ("relative_humidity", Store.red (find_median_data lh))], NODE⟩),
          ⟨Store.red (find_median_data lt), Store.red (find_median_data lh)⟩) := rfl
    rw [this, hm]

/-- Witness for C4 (amended), at a one-camera one-temperature list whose
temperature accumulator is too short to reduce. -/
theorem snapshot_reduced_and_bounded_witness :
    ([("TEMP_AHT21", ⟨[("temperature", Store.red none),
        ("relative_humidity", Store.red none)], NODE⟩)] : List (String × Reading)).length ≤
      [Sensor.camera, Sensor.temp ⟨.raw [1, 2, 3], .raw [4, 5, 6]⟩].countP
        (fun s => !isCamera s) ∧
    ∀ kv ∈ ([("TEMP_AHT21", ⟨[("temperature", Store.red none),
        ("relative_humidity", Store.red none)], NODE⟩)] : List (String × Reading)),
      ∀ a ∈ kv.2.attrs, ∃ v, a.2 = Store.red v := by
  have h := snapshot_reduced_and_bounded
    [Sensor.camera, Sensor.temp ⟨.raw [1, 2, 3], .raw [4, 5, 6]⟩]
    [("TEMP_AHT21", ⟨[("temperature", Store.red none),
      ("relative_humidity", Store.red none)], NODE⟩)]
    [Sensor.camera, Sensor.temp TEMP_AHT21_reset]
    (by decide)
  exact ⟨h.1, h.2.1⟩

/-- C8 (code bug evidence): when the CO2 sensor's `package` returns no
data (here: ten accumulated AQI samples, all zero, reduce to the falsy
median `0`), `get_data` skips `reset_sensor_data` for it.  The sensor
leaves the cycle with its accumulators replaced by reduced scalars
rather than reset to empty lists — and the next cycle's collection,
calling `.append` on such a scalar, raises instead of accumulating. -/
theorem co2_reset_skipped_after_failed_package :
    get_data_package_loop
        [Sensor.co2 ⟨.raw [0, 0, 0, 0, 0, 0, 0, 0, 0, 0],
          .raw [5, 5, 5, 5, 5, 5, 5, 5, 5, 5],
          .raw [6, 6, 6, 6, 6, 6, 6, 6, 6, 6]⟩ 25 50]
      = some ([], [Sensor.co2 ⟨.red (some 0), .red (some 5), .red (some 6)⟩ 25 50]) ∧
    Sensor.co2 ⟨Store.red (some 0), .red (some 5), .red (some 6)⟩ 25 50 ≠
      (Sensor.co2 ⟨.raw [0, 0, 0, 0, 0, 0, 0, 0, 0, 0],
        .raw [5, 5, 5, 5, 5, 5, 5, 5, 5, 5],
        .raw [6, 6, 6, 6, 6, 6, 6, 6, 6, 6]⟩ 25 50).reset_sensor_data ∧
    co2_try_read (fun _ => 1) CO2_ATTEMPTS 0 (Store.red (some 0)) = none := by
  decide

/-- Shared helper: truthiness of a reduced slot means a non-zero,
non-`None` value. -/
lemma Store.truthy_red_iff (m : Option Int) :
    (Store.red m).truthy = true ↔ ∃ v, m = some v ∧ v ≠ 0 := by
  cases m with
  | none => simp [Store.truthy]
  | some v => simp [Store.truthy]

/-- C9: for freshly accumulated (raw) CO2 data, `package` produces a
reading exactly when every one of the three reduced attribute values
(AQI, TVOC, eCO2) is truthy — some non-zero value; if any attribute
reduces to zero or to no value, `package` keeps `data = None` and the
cycle's CO2 reading is dropped (while the data dictionary retains the
reduced values). -/
theorem co2_package_requires_truthy_attrs (la lt le : List Int) :
    ∃ p, CO2_ENS160_package ⟨.raw la, .raw lt, .raw le⟩
        = some (p, ⟨Store.red (find_median_data la), Store.red (find_median_data lt),
                    Store.red (find_median_data le)⟩) ∧
      (p.isSome = true ↔
        ((∃ v, find_median_data la = some v ∧ v ≠ 0) ∧
         (∃ v, find_median_data lt = some v ∧ v ≠ 0) ∧
         (∃ v, find_median_data le = some v ∧ v ≠ 0))) := by
  have hpkg : CO2_ENS160_package ⟨.raw la, .raw lt, .raw le⟩
      = (if ((Store.red (find_median_data la)).truthy &&
             (Store.red (find_median_data lt)).truthy &&
             (Store.red (find_median_data le)).truthy) = true
         then some (some ("CO2_ENS160",
           ⟨[("AQI", Store.red (find_median_data la)),
             ("TVOC", Store.red (find_median_data lt)),
             ("eCO2", Store.red (find_median_data le))], NODE⟩),
           ⟨Store.red (find_median_data la), Store.red (find_median_data lt),
            Store.red (find_median_data le)⟩)
         else some (none,
           ⟨Store.red (find_median_data la), Store.red (find_median_data lt),
            Store.red (find_median_data le)⟩)) := rfl
  have hiff : ((Store.red (find_median_data la)).truthy &&
      (Store.red (find_median_data lt)).truthy &&
      (Store.red (find_median_data le)).truthy) = true ↔
      ((∃ v, find_median_data la = some v ∧ v ≠ 0) ∧
       (∃ v, find_median_data lt = some v ∧ v ≠ 0) ∧
       (∃ v, find_median_data le = some v ∧ v ≠ 0)) := by
    simp [Bool.and_eq_true, Store.truthy_red_iff, and_assoc]
  by_cases hb : ((Store.red (find_median_data la)).truthy &&
      (Store.red (find_median_data lt)).truthy &&
      (Store.red (find_median_data le)).truthy) = true
  · refine ⟨some ("CO2_ENS160",
      ⟨[("AQI", Store.red (find_median_data la)),
        ("TVOC", Store.red (find_median_data lt)),
        ("eCO2", Store.red (find_median_data le))], NODE⟩), ?_, ?_⟩
    · rw [hpkg, if_pos hb]
    · simp only [Option.isSome_some]
      exact iff_of_true trivial (hiff.mp hb)
  · refine ⟨none, ?_, ?_⟩
    · rw [hpkg, if_neg hb]
    · simp only [Option.isSome_none]
      exact iff_of_false (by simp) (fun hc => hb (hiff.mpr hc))

/-- Shared helper: the CO2 retry loop keeps a raw store raw. -/
lemma co2_try_read_raw (f : Nat → Int) :
    ∀ n i l, ∃ lr, co2_try_read f n i (.raw l) = some (.raw lr) := by
  intro n
  induction n with
  | zero => intro i l; exact ⟨l, rfl⟩
  | succ n ih =>
    intro i l
    by_cases h : f i = 0
    · obtain ⟨lr, hlr⟩ := ih (i + 1) l
      exact ⟨lr, by simp [co2_try_read, h, hlr]⟩
    · exact ⟨l ++ [f i], by simp [co2_try_read, h, Store.append]⟩

/-- Shared helper: collecting into raw CO2 accumulators succeeds and
keeps them raw. -/
lemma CO2_ENS160_collect_raw (hw : HW) (r : Nat) (x y z : List Int) :
    ∃ xr yr zr, CO2_ENS160_collect hw r ⟨.raw x, .raw y, .raw z⟩ =
      some ⟨.raw xr, .raw yr, .raw zr⟩ := by
  obtain ⟨xr, hx⟩ := co2_try_read_raw (hw.AQI r) CO2_ATTEMPTS 0 x
  obtain ⟨yr, hy⟩ := co2_try_read_raw (hw.TVOC r) CO2_ATTEMPTS 0 y
  obtain ⟨zr, hz⟩ := co2_try_read_raw (hw.eCO2 r) CO2_ATTEMPTS 0 z
  exact ⟨xr, yr, zr, by simp [CO2_ENS160_collect, hx, hy, hz]⟩

/-- Shared helper: one more collection round extends the temperature
accumulators by the round's readings. -/
lemma TEMP_AHT21_collect_ahtAcc (hw : HW) (r : Nat) :
    TEMP_AHT21_collect (hw.aht_temperature r) (hw.aht_relative_humidity r) (ahtAcc hw r)
      = some (ahtAcc hw (r + 1)) := by
  simp [TEMP_AHT21_collect, ahtAcc, Store.append, List.range_succ]

/-- Shared helper: after at least one round, `get_temperature` yields the
first-round sample with the zero-default applied. -/
lemma get_temperature_ahtAcc (hw : HW) (r : Nat) :
    get_temperature (ahtAcc hw (r + 1)) = some (compT hw) := by
  simp only [get_temperature, ahtAcc]
  rw [List.range_succ_eq_map]
  simp [compT]

/-- Shared helper: likewise for `get_humidity`. -/
lemma get_humidity_ahtAcc (hw : HW) (r : Nat) :
    get_humidity (ahtAcc hw (r + 1)) = some (compH hw) := by
  simp only [get_humidity, ahtAcc]
  rw [List.range_succ_eq_map]
  simp [compH]

/-- Shared helper: one sampling round over the ordered pair
(temperature sensor, CO2 sensor): the temperature sensor collects and
refreshes the locals, then the CO2 sensor's compensation fields are set
from them before its own collection. -/
lemma gather_pass_temp_co2 (hw : HW) (r : Nat) (x y z : List Int) (tc hc : Int)
    (lo : Option (Int × Int)) :
    ∃ xr yr zr, gather_pass hw true true r
        [Sensor.temp (ahtAcc hw r), Sensor.co2 ⟨.raw x, .raw y, .raw z⟩ tc hc] lo
      = some ([Sensor.temp (ahtAcc hw (r + 1)),
               Sensor.co2 ⟨.raw xr, .raw yr, .raw zr⟩ (compT hw) (compH hw)],
              some (compT hw, compH hw)) := by
  obtain ⟨xr, yr, zr, hcol⟩ := CO2_ENS160_collect_raw hw r x y z
  refine ⟨xr, yr, zr, ?_⟩
  simp [gather_pass, TEMP_AHT21_collect_ahtAcc hw r, get_temperature_ahtAcc hw r,
    get_humidity_ahtAcc hw r, hcol]

/-- Shared helper: running `n + 1` rounds over the ordered pair keeps the
invariant: the compensation fields and the locals always hold the
first-round temperature/humidity samples with the zero-defaults
applied. -/
lemma gather_rounds_temp_co2 (hw : HW) :
    ∀ (n r : Nat) (x y z : List Int) (tc hc : Int) (lo : Option (Int × Int)),
      ∃ xr yr zr, gather_rounds hw true true (n + 1) r
          [Sensor.temp (ahtAcc hw r), Sensor.co2 ⟨.raw x, .raw y, .raw z⟩ tc hc] lo
        = some ([Sensor.temp (ahtAcc hw (r + n + 1)),
                 Sensor.co2 ⟨.raw xr, .raw yr, .raw zr⟩ (compT hw) (compH hw)],
                some (compT hw, compH hw)) := by
  intro n
  induction n with
  | zero =>
    intro r x y z tc hc lo
    obtain ⟨xr, yr, zr, hp⟩ := gather_pass_temp_co2 hw r x y z tc hc lo
    exact ⟨xr, yr, zr, by simp [gather_rounds, hp]⟩
  | succ n ih =>
    intro r x y z tc hc lo
    obtain ⟨xr, yr, zr, hp⟩ := gather_pass_temp_co2 hw r x y z tc hc lo
    obtain ⟨xr2, yr2, zr2, hrec⟩ := ih (r + 1) xr yr zr (compT hw) (compH hw)
      (some (compT hw, compH hw))
    refine ⟨xr2, yr2, zr2, ?_⟩
    have harith : r + 1 + n + 1 = r + (n + 1) + 1 := by omega
    rw [harith] at hrec
    simp only [gather_rounds, hp]
    exact hrec

/-- Shared helper: with no temperature sensor present, rounds over the
CO2 sensor alone never touch its compensation fields or the locals. -/
lemma gather_rounds_co2_alone (hw : HW) :
    ∀ (n r : Nat) (x y z : List Int) (tc hc : Int) (lo : Option (Int × Int)),
      ∃ xr yr zr, gather_rounds hw false true n r
          [Sensor.co2 ⟨.raw x, .raw y, .raw z⟩ tc hc] lo
        = some ([Sensor.co2 ⟨.raw xr, .raw yr, .raw zr⟩ tc hc], lo) := by
  intro n
  induction n with
  | zero => intro r x y z tc hc lo; exact ⟨x, y, z, rfl⟩
  | succ n ih =>
    intro r x y z tc hc lo
    obtain ⟨xr, yr, zr, hcol⟩ := CO2_ENS160_collect_raw hw r x y z
    obtain ⟨xr2, yr2, zr2, hrec⟩ := ih (r + 1) xr yr zr tc hc lo
    refine ⟨xr2, yr2, zr2, ?_⟩
    simp only [gather_rounds, gather_pass, hcol]
    simpa using hrec

/-- Counterexample for C6: with the temperature attribute reading zero in
every round, the CO2 sensor's compensation fields end up holding the
default 25 — not the actual first-round raw sample 0 (the humidity field
does receive the raw sample 40). -/
theorem compensation_zero_sample_counterexample :
    gather_sensor_data hwZeroTemp [tempInit, co2Init]
      = some [Sensor.temp ⟨.raw [0, 0, 0, 0, 0, 0, 0, 0, 0, 0],
                .raw [40, 40, 40, 40, 40, 40, 40, 40, 40, 40]⟩,
              Sensor.co2 ⟨.raw [1, 1, 1, 1, 1, 1, 1, 1, 1, 1],
                .raw [2, 2, 2, 2, 2, 2, 2, 2, 2, 2],
                .raw [3, 3, 3, 3, 3, 3, 3, 3, 3, 3]⟩ 25 40] ∧
    hwZeroTemp.aht_temperature 0 = 0 ∧ (25 : Int) ≠ 0 := by
  decide

/-- C6 (amended): with both sensors present (in either initial order —
the reordering puts the CO2 sensor after the temperature sensor), before
each of the CO2 sensor's collections its compensation fields are set to
the temperature sensor's first-round sample values with the defaults 25
and 50 substituted for a zero (falsy) first sample; with the temperature
sensor absent, the CO2 sensor is sampled with its constructor-default
compensation values 25 and 50 untouched. -/
theorem compensation_first_sample_or_default (hw : HW) (k : Nat) :
    (∃ c d, gather_rounds hw true true (k + 1) 0 [tempInit, co2Init] none
        = some ([Sensor.temp d, Sensor.co2 c (compT hw) (compH hw)],
                some (compT hw, compH hw))) ∧
    (∃ c2, gather_sensor_data hw [co2Init, tempInit]
        = some [Sensor.temp (ahtAcc hw NUM_READINGS),
                Sensor.co2 c2 (compT hw) (compH hw)]) ∧
    (∃ c3, gather_sensor_data hw [co2Init] = some [Sensor.co2 c3 25 50]) := by
  refine ⟨?_, ?_, ?_⟩
  · obtain ⟨xr, yr, zr, h⟩ := gather_rounds_temp_co2 hw k 0 [] [] [] 25 50 none
    exact ⟨⟨.raw xr, .raw yr, .raw zr⟩, ahtAcc hw (0 + k + 1), h⟩
  · obtain ⟨xr, yr, zr, h⟩ := gather_rounds_temp_co2 hw 9 0 [] [] [] 25 50 none
    refine ⟨⟨.raw xr, .raw yr, .raw zr⟩, ?_⟩
    have hae : [co2Init, tempInit].any isTemp = true := by decide
    have hce : [co2Init, tempInit].any isCO2 = true := by decide
    have hre : compensation_reorder [co2Init, tempInit] = [tempInit, co2Init] := by decide
    have h2 : gather_rounds hw true true NUM_READINGS 0 [tempInit, co2Init] none
        = some ([Sensor.temp (ahtAcc hw (0 + 9 + 1)),
                 Sensor.co2 ⟨.raw xr, .raw yr, .raw zr⟩ (compT hw) (compH hw)],
                some (compT hw, compH hw)) := h
    simp only [gather_sensor_data]
    rw [hae, hce, hre, h2]
    rfl
  · obtain ⟨xr, yr, zr, h⟩ := gather_rounds_co2_alone hw NUM_READINGS 0 [] [] [] 25 50 none
    refine ⟨⟨.raw xr, .raw yr, .raw zr⟩, ?_⟩
    have hae : [co2Init].any isTemp = false := by decide
    have hce : [co2Init].any isCO2 = true := by decide
    have hre : compensation_reorder [co2Init] = [co2Init] := by decide
    have h2 : gather_rounds hw false true NUM_READINGS 0 [co2Init] none
        = some ([Sensor.co2 ⟨.raw xr, .raw yr, .raw zr⟩ 25 50], none) := h
    simp only [gather_sensor_data]
    rw [hae, hce, hre, h2]
    rfl

/-- C10: with the temperature/humidity sensor present and holding a
first sample, a zero (falsy) first sample makes `get_temperature` return
the fixed default 25 and `get_humidity` the fixed default 50, so the CO2
sensor's compensation fields receive the defaults rather than the actual
zero first-round sample. -/
theorem zero_first_sample_defaults :
    (∀ l l2 : List Int, get_temperature ⟨.raw (0 :: l), .raw l2⟩ = some 25 ∧
      get_humidity ⟨.raw l, .raw (0 :: l2)⟩ = some 50) ∧
    (∀ hw : HW, hw.aht_temperature 0 = 0 → hw.aht_relative_humidity 0 = 0 →
      ∀ k : Nat, ∃ c d, gather_rounds hw true true (k + 1) 0 [tempInit, co2Init] none
        = some ([Sensor.temp d, Sensor.co2 c 25 50], some (25, 50))) := by
  constructor
  · intro l l2
    constructor
    · simp [get_temperature]
    · simp [get_humidity]
  · intro hw hT hH k
    obtain ⟨xr, yr, zr, h⟩ := gather_rounds_temp_co2 hw k 0 [] [] [] 25 50 none
    have hcT : compT hw = 25 := by simp [compT, hT]
    have hcH : compH hw = 50 := by simp [compH, hH]
    rw [hcT, hcH] at h
    exact ⟨⟨.raw xr, .raw yr, .raw zr⟩, ahtAcc hw (0 + k + 1), h⟩

/-- Witness for C10: a concrete zero first sample yields the defaults,
both through the getters and through a sampling round. -/
theorem zero_first_sample_defaults_witness :
    get_temperature ⟨.raw [0, 3], .raw [7]⟩ = some 25 ∧
    (∃ c d, gather_rounds hwAllZero true true 1 0 [tempInit, co2Init] none
      = some ([Sensor.temp d, Sensor.co2 c 25 50], some (25, 50))) := by
  refine ⟨(zero_first_sample_defaults.1 [3] [7]).1, ?_⟩
  exact zero_first_sample_defaults.2 hwAllZero rfl rfl 0

/-- Counterexample for C7: a hardware read fault (`RuntimeError` from
`getattr` during `collect_data_for_median`) is not caught anywhere in
the collection path, so it propagates out of the acquisition cycle —
the cycle produces no snapshot and the `get_data` task terminates,
contradicting the claim that every sampling fault is caught at the
point of use. -/
theorem sampling_fault_escapes_loop :
    get_data_cycle_co2_exc (fun _ _ => .error .runtimeError)
      (fun _ _ => .ok 5) (fun _ _ => .ok 5) CO2_ENS160_reset 25 50
      = .error .runtimeError := by
  rfl

/-- C7 (amended): a fault raised inside per-sample collection propagates
unchanged out of the acquisition cycle (no handler exists on that path),
terminating the loop; by contrast a camera-capture `RuntimeError` is
caught at the point of use and yields no image path; and a sensor whose
reduction merely produced no usable value (here the CO2 sensor with
falsy medians) does not stop the cycle — the snapshot still carries
every other sensor's reading. -/
theorem fault_locality_spec :
    (∀ (e : PyErr) (hwT hwE : Nat → Nat → Except PyErr Int) (d : CO2Data) (tc hc : Int),
      get_data_cycle_co2_exc (fun _ _ => .error e) hwT hwE d tc hc = .error e) ∧
    capture_image (.error .runtimeError) = .ok none ∧
    (get_data_package_loop
        [Sensor.co2 ⟨.raw [0, 0, 0, 0, 0, 0, 0, 0, 0, 0],
          .raw [5, 5, 5, 5, 5, 5, 5, 5, 5, 5],
          .raw [6, 6, 6, 6, 6, 6, 6, 6, 6, 6]⟩ 25 50,
         Sensor.ir ⟨.raw [1, 2, 3, 4, 5, 6, 7, 8, 9, 10],
          .raw [1, 2, 3, 4, 5, 6, 7, 8, 9, 10]⟩]).map (fun x => x.1.map Prod.fst)
      = some ["IR_MLX90614"] := by
  refine ⟨?_, rfl, by decide⟩
  intro e hwT hwE d tc hc
  rfl
